import Mathlib

/-!
Shallow embedding of the password-manager core
(src/js/patterns/Singleton.js, src/js/patterns/Mediator.js — the
chain-of-responsibility recovery part, src/js/app.js, src/js/database.js)
and proofs about the session lifecycle and recovery verification chain.

JavaScript strings are modelled as lists of UTF-16 code units
(`JSStr := List Nat`); machine 32-bit integer coercion (`x | 0`, `<<`,
`&`) is modelled by `toInt32`.
-/

/-- A JavaScript string: its list of UTF-16 code units. -/
abbrev JSStr := List Nat

/-- JS ToInt32: reduce an integer to the 32-bit two's-complement range. -/
def toInt32 (x : Int) : Int :=
  let r := x % 4294967296
  if r < 2147483648 then r else r - 4294967296

/-- One step of the fold hash in `SessionManager.hashPassword`
(`hash = ((hash << 5) - hash) + char; hash = hash & hash`): the shift
is a 32-bit left shift, the `& `-with-itself is ToInt32. -/
def hashStep (h : Int) (c : Nat) : Int :=
  toInt32 (toInt32 (h * 32) - h + c)

/-- The accumulated fold hash over the code units of the password. -/
def hashLoop (s : JSStr) : Int :=
  s.foldl hashStep 0

/-- Base64 alphabet (for the `btoa` call). -/
def b64alphabet : List Char :=
  "ABCDEFGHIJKLMNOPQRSTUVWXYZabcdefghijklmnopqrstuvwxyz0123456789+/".toList

def b64char (n : Nat) : Char := b64alphabet.getD n 'A'

/-- `btoa`: base64-encode a sequence of bytes (here always ASCII). -/
def b64encode : List Nat → String
  | [] => ""
  | [a] =>
      String.mk [b64char (a / 4), b64char ((a % 4) * 16)] ++ "=="
  | [a, b] =>
      String.mk [b64char (a / 4), b64char ((a % 4) * 16 + b / 16),
                 b64char ((b % 16) * 4)] ++ "="
  | a :: b :: c :: rest =>
      String.mk [b64char (a / 4), b64char ((a % 4) * 16 + b / 16),
                 b64char ((b % 16) * 4 + c / 64), b64char (c % 64)]
        ++ b64encode rest

/-- Code units of an ASCII Lean string (used for the `btoa` argument). -/
def strBytes (s : String) : List Nat := s.data.map Char.toNat

/-- `SessionManager.hashPassword` (Singleton.js 254–262): fold-hash the
code units, then `btoa(hash.toString() + password.length + 'mypass_salt')`.
The identical function is wired into the recovery manager by app.js
(`recoveryManager.setHashFunction`). -/
def hashPassword (password : JSStr) : String :=
  b64encode (strBytes (toString (hashLoop password)
    ++ toString password.length ++ "mypass_salt"))

/-- JS `toLowerCase` restricted to ASCII letters (the only case mapping
exercised by this development). -/
def lowerChar (c : Nat) : Nat :=
  if 65 ≤ c ∧ c ≤ 90 then c + 32 else c

def toLowerList (s : JSStr) : JSStr := s.map lowerChar

/-- The code units JS `trim` removes (WhiteSpace ∪ LineTerminator). -/
def isWsChar (c : Nat) : Bool :=
  c = 9 ∨ c = 10 ∨ c = 11 ∨ c = 12 ∨ c = 13 ∨ c = 32 ∨ c = 160 ∨
  c = 5760 ∨ (8192 ≤ c ∧ c ≤ 8202) ∨ c = 8232 ∨ c = 8233 ∨
  c = 8239 ∨ c = 8287 ∨ c = 12288 ∨ c = 65279

/-- Drop trailing whitespace (via reverse). -/
def dropRightWs (s : JSStr) : JSStr :=
  (s.reverse.dropWhile isWsChar).reverse

/-- JS `String.prototype.trim`. -/
def trimList (s : JSStr) : JSStr :=
  dropRightWs (s.dropWhile isWsChar)

/-- Answer normalization as done both at registration (Singleton.js 79:
`q.answer.toLowerCase().trim()`) and at verification (Mediator.js 226:
`(userAnswer || '').toLowerCase().trim()`): lower-case, then trim. -/
def normalizeAnswer (s : JSStr) : JSStr := trimList (toLowerList s)

example : hashLoop [65, 97] = 2112 := by decide
example : hashLoop [66, 66] = 2112 := by decide
example : hashPassword [65, 97] = hashPassword [66, 66] := by decide
example : normalizeAnswer [32, 82, 69, 88, 32] = [114, 101, 120] := by decide

/-! ## Credential store (database.js, `users` object store keyed by email) -/

/-- One stored (question, answerDigest) pair, as persisted by `register`
and consumed by `PasswordRecoveryManager.initialize`. -/
structure StoredQA where
  question : JSStr
  answer : String
  deriving Repr, DecidableEq

/-- Per-account settings object written at registration. -/
structure Settings where
  autoLockMinutes : Nat
  clipboardClearMinutes : Nat
  deriving Repr, DecidableEq

/-- A persisted user record (Singleton.js 82–91). -/
structure Account where
  email : JSStr
  masterPassword : String
  securityQuestions : List StoredQA
  settings : Settings
  deriving Repr, DecidableEq

/-- The `users` store: records keyed by email. -/
abbrev Store := List Account

/-- `database.getUser(email)`: keyed lookup. -/
def getUser (db : Store) (email : JSStr) : Option Account :=
  db.find? (fun a => a.email = email)

/-- `database.saveUser(user)`: IndexedDB `put` — upsert keyed on email. -/
def saveUser (db : Store) (u : Account) : Store :=
  if db.any (fun a => a.email = u.email) then
    db.map (fun a => if a.email = u.email then u else a)
  else
    db ++ [u]

/-! ## Session manager (Singleton.js `SessionManager`) -/

/-- Errors thrown by the session manager (`throw new Error(...)`). -/
inductive AuthError where
  | emailExists       -- 'Email already registered'
  | userNotFound      -- 'User not found'
  | invalidPassword   -- 'Invalid password'
  | noUserSession     -- 'No user session'
  deriving Repr, DecidableEq

/-- A raw (question, plain answer) pair as handed to `register`. -/
structure QAInput where
  question : JSStr
  answer : JSStr
  deriving Repr, DecidableEq

/-- `SessionManager.register` (Singleton.js 69–95): rejects a duplicate
email, digests the secret, digests each answer after
`toLowerCase().trim()`, and persists the account.  It performs no
validation of the questions list itself. -/
def register (db : Store) (email : JSStr) (masterPassword : JSStr)
    (securityQuestions : List QAInput) : Except AuthError Store :=
  match getUser db email with
  | some _ => .error .emailExists
  | none =>
    let hashedPassword := hashPassword masterPassword
    let hashedQuestions := securityQuestions.map (fun q =>
      { question := q.question,
        answer := hashPassword (normalizeAnswer q.answer) : StoredQA })
    let user : Account :=
      { email := email, masterPassword := hashedPassword,
        securityQuestions := hashedQuestions,
        settings := { autoLockMinutes := 1, clipboardClearMinutes := 1 } }
    .ok (saveUser db user)

/-- The timer environment: handles of live `setInterval`/`setTimeout`
registrations, kept separately from the manager's own handle fields so
that a leaked (never-cancelled) timer is representable. -/
structure TimerEnv where
  nextHandle : Nat
  lockIntervals : List Nat
  clipTimeouts : List Nat
  deriving Repr, DecidableEq

def setIntervalLock (env : TimerEnv) : Nat × TimerEnv :=
  (env.nextHandle,
   { env with nextHandle := env.nextHandle + 1,
              lockIntervals := env.nextHandle :: env.lockIntervals })

def clearIntervalLock (env : TimerEnv) (h : Nat) : TimerEnv :=
  { env with lockIntervals := env.lockIntervals.filter (fun x => x ≠ h) }

def setTimeoutClip (env : TimerEnv) : Nat × TimerEnv :=
  (env.nextHandle,
   { env with nextHandle := env.nextHandle + 1,
              clipTimeouts := env.nextHandle :: env.clipTimeouts })

def clearTimeoutClip (env : TimerEnv) (h : Nat) : TimerEnv :=
  { env with clipTimeouts := env.clipTimeouts.filter (fun x => x ≠ h) }

/-- The `SessionManager` instance fields (Singleton.js 44–51). -/
structure SessionState where
  user : Option Account
  isAuthenticated : Bool
  lastActivity : Nat
  autoLockMinutes : Nat
  clipboardClearMinutes : Nat
  lockTimer : Option Nat
  clipboardTimer : Option Nat
  deriving Repr, DecidableEq

/-- The world the session manager acts on: the credential store, the
singleton session, the timer environment, the clipboard, and the clock. -/
structure World where
  db : Store
  session : SessionState
  timers : TimerEnv
  clipboard : JSStr
  now : Nat
  deriving Repr, DecidableEq

/-- `stopAutoLockTimer` (Singleton.js 185–190). -/
def stopAutoLockTimer (w : World) : World :=
  match w.session.lockTimer with
  | none => w
  | some h =>
      { w with timers := clearIntervalLock w.timers h,
               session := { w.session with lockTimer := none } }

/-- `startAutoLockTimer` (Singleton.js 170–180): cancels any prior
interval first, then registers a fresh one. -/
def startAutoLockTimer (w : World) : World :=
  let w1 := stopAutoLockTimer w
  let p := setIntervalLock w1.timers
  { w1 with timers := p.2,
            session := { w1.session with lockTimer := some p.1 } }

/-- `clearClipboard` (Singleton.js 212–218): blank the clipboard and
cancel a pending clear-timeout. -/
def clearClipboard (w : World) : World :=
  let w1 := { w with clipboard := [] }
  match w1.session.clipboardTimer with
  | none => w1
  | some h =>
      { w1 with timers := clearTimeoutClip w1.timers h,
                session := { w1.session with clipboardTimer := none } }

/-- `login` (Singleton.js 100–121). `user.settings?.autoLockMinutes || 5`:
a zero (falsy) stored value falls back to the default. -/
def login (w : World) (email : JSStr) (masterPassword : JSStr) :
    Except AuthError World :=
  match getUser w.db email with
  | none => .error .userNotFound
  | some user =>
    if hashPassword masterPassword = user.masterPassword then
      let s := { w.session with
        user := some user, isAuthenticated := true, lastActivity := w.now,
        autoLockMinutes :=
          if user.settings.autoLockMinutes = 0 then 5
          else user.settings.autoLockMinutes,
        clipboardClearMinutes :=
          if user.settings.clipboardClearMinutes = 0 then 1
          else user.settings.clipboardClearMinutes }
      .ok (startAutoLockTimer { w with session := s })
    else .error .invalidPassword

/-- `logout` (Singleton.js 126–131). -/
def logout (w : World) : World :=
  let w1 := { w with session :=
    { w.session with user := none, isAuthenticated := false } }
  clearClipboard (stopAutoLockTimer w1)

/-- `lock` (Singleton.js 136–139). -/
def lock (w : World) : World :=
  stopAutoLockTimer
    { w with session := { w.session with isAuthenticated := false } }

/-- `unlock` (Singleton.js 144–158). -/
def unlock (w : World) (masterPassword : JSStr) : Except AuthError World :=
  match w.session.user with
  | none => .error .noUserSession
  | some user =>
    if hashPassword masterPassword = user.masterPassword then
      .ok (startAutoLockTimer { w with session :=
        { w.session with isAuthenticated := true, lastActivity := w.now } })
    else .error .invalidPassword

/-- `updateActivity` (Singleton.js 163–165): unconditionally stamps the
current time. -/
def updateActivity (w : World) : World :=
  { w with session := { w.session with lastActivity := w.now } }

/-- `copyToClipboard` (Singleton.js 195–207): write text, cancel a
pending clear-timeout, schedule a fresh one. -/
def copyToClipboard (w : World) (text : JSStr) : World :=
  let w1 := { w with clipboard := text }
  let w2 :=
    match w1.session.clipboardTimer with
    | none => w1
    | some h => { w1 with timers := clearTimeoutClip w1.timers h }
  let p := setTimeoutClip w2.timers
  { w2 with timers := p.2,
            session := { w2.session with clipboardTimer := some p.1 } }

/-- `updatePassword` (Singleton.js 243–249): re-digest and save when the
account exists; silently do nothing when it does not. -/
def updatePassword (db : Store) (email : JSStr) (newPassword : JSStr) :
    Store :=
  match getUser db email with
  | none => db
  | some user =>
      saveUser db { user with masterPassword := hashPassword newPassword }

/-! ## Recovery verification chain
(`SecurityQuestionHandler` / `PasswordRecoveryManager`, the
chain-of-responsibility file bundled in src/js/patterns/Mediator.js).
app.js wires `hashPassword` (verbatim copy of the same fold hash) into
the manager via `setHashFunction`, so the hash function is fixed to
`hashPassword` here. -/

/-- One `SecurityQuestionHandler` (question, stored digest, 0-based
answer index).  The successor links of the JS objects are represented by
list order. -/
structure SQHandler where
  question : JSStr
  hashedAnswer : String
  index : Nat
  deriving Repr, DecidableEq

/-- `SecurityQuestionHandler.verify` (Mediator.js 224–230): normalize
the supplied answer (`(userAnswer || '')` maps a missing array entry to
the empty string), digest, compare with the stored digest. -/
def sqVerify (h : SQHandler) (userAnswer : Option JSStr) : Bool :=
  hashPassword (normalizeAnswer (userAnswer.getD [])) = h.hashedAnswer

/-- Result of running the chain (`{success, failedAt?}`). -/
inductive ChainResult where
  | success
  | failedAt (pos : Nat)   -- 1-based: `this.index + 1`
  deriving Repr, DecidableEq

/-- `SecurityQuestionHandler.handleRequest` (Mediator.js 235–249) over
the successor chain: fail outright naming `index + 1`, or delegate; the
final handler's success is overall success.  (The empty-list case is the
delegation-exhausted success; `initialize` never builds an empty chain.) -/
def handleRequest : List SQHandler → List JSStr → ChainResult
  | [], _ => .success
  | h :: rest, answers =>
      if sqVerify h answers[h.index]? then handleRequest rest answers
      else .failedAt (h.index + 1)

/-- `PasswordRecoveryManager` instance fields (Mediator.js 256–264).
`lockClearAt` is the absolute time at which the pending
`setTimeout(() => { this.locked = false; this.attempts = 0; }, 15*60*1000)`
is due to fire; `none` when no unlock timeout is pending. -/
structure RecoveryState where
  chain : Option (List SQHandler)
  questions : List (Nat × JSStr)   -- {index, question} display records
  attempts : Nat
  maxAttempts : Nat
  locked : Bool
  lockClearAt : Option Nat
  deriving Repr, DecidableEq

/-- A freshly constructed `PasswordRecoveryManager`. -/
def initialRecoveryState : RecoveryState :=
  { chain := none, questions := [], attempts := 0, maxAttempts := 3,
    locked := false, lockClearAt := none }

inductive RecError where
  | insufficientFactors   -- 'Three security questions required'
  deriving Repr, DecidableEq

/-- `PasswordRecoveryManager.initialize` (Mediator.js 277–322): rejects
fewer than 3 pairs; stores ALL pairs' question texts for display; builds
the chain handler1 → handler2 → handler3 from the FIRST THREE pairs
only; resets attempts and lockout; returns the display questions. -/
def recoveryInit (st : RecoveryState) (securityQuestions : List StoredQA) :
    Except RecError (List (Nat × JSStr) × RecoveryState) :=
  if securityQuestions.length < 3 then .error .insufficientFactors
  else
    match securityQuestions with
    | p0 :: p1 :: p2 :: _ =>
      let questions :=
        securityQuestions.enum.map (fun p => (p.1, p.2.question))
      let handlers : List SQHandler :=
        [ { question := p0.question, hashedAnswer := p0.answer, index := 0 },
          { question := p1.question, hashedAnswer := p1.answer, index := 1 },
          { question := p2.question, hashedAnswer := p2.answer, index := 2 } ]
      .ok (questions,
        { st with chain := some handlers, questions := questions,
                  attempts := 0, locked := false })
    | _ => .error .insufficientFactors

/-- The outcomes of `PasswordRecoveryManager.verify`, one constructor per
returned object shape (messages in comments). -/
inductive VerifyResult where
  | success
  | lockedOut                              -- 'Too many attempts. Try again later.'
  | notInitialized                         -- 'Recovery not initialized'
  | justLocked                             -- 'Too many attempts. Locked for 15 minutes.'
  | wrongAnswer (failedAt : Nat) (attemptsLeft : Nat)
      -- `Question ${failedAt} incorrect. ${maxAttempts - attempts} attempts left.`
  deriving Repr, DecidableEq

/-- `PasswordRecoveryManager.verify` (Mediator.js 327–350), with the
clock passed explicitly for the lockout `setTimeout` registration. -/
def verify (st : RecoveryState) (now : Nat) (answers : List JSStr) :
    VerifyResult × RecoveryState :=
  if st.locked then (.lockedOut, st)
  else
    match st.chain with
    | none => (.notInitialized, st)
    | some chain =>
      match handleRequest chain answers with
      | .success => (.success, st)
      | .failedAt pos =>
        let attempts := st.attempts + 1
        if st.maxAttempts ≤ attempts then
          (.justLocked,
           { st with attempts := attempts, locked := true,
                     lockClearAt := some (now + 15 * 60 * 1000) })
        else
          (.wrongAnswer pos (st.maxAttempts - attempts),
           { st with attempts := attempts })

/-- The pending lockout timeout may fire at `now` only if it was
scheduled and its delay has elapsed. -/
def canFireLockTimeout (st : RecoveryState) (now : Nat) : Prop :=
  ∃ t, st.lockClearAt = some t ∧ t ≤ now

/-- The body of the lockout `setTimeout` callback (Mediator.js 343):
`this.locked = false; this.attempts = 0;` (and the timeout is spent). -/
def fireLockTimeout (st : RecoveryState) : RecoveryState :=
  { st with locked := false, attempts := 0, lockClearAt := none }

/-- `PasswordRecoveryManager.reset` (Mediator.js 356–361). -/
def recoveryReset (st : RecoveryState) : RecoveryState :=
  { st with chain := none, questions := [], attempts := 0, locked := false }

/-! ## UI-side registration validation (app.js `handleRegister` 164–185):
the three question slots are checked for completeness and duplicate
question texts before `sessionManager.register` is ever called. -/

/-- The question-collection loop of `handleRegister`: each slot is a
(selected question, typed answer) pair; the answer is trimmed; an empty
question or answer aborts, as does a question already selected
(`selectedQuestions.has(q)`).  Returns the list passed to `register`,
or `none` when the loop aborts with a toast. -/
def collectQuestions : List (JSStr × JSStr) → List JSStr →
    Option (List QAInput)
  | [], _ => some []
  | (q, a) :: rest, seen =>
      let a' := trimList a
      if q = [] ∨ a' = [] then none
      else if q ∈ seen then none
      else
        match collectQuestions rest (q :: seen) with
        | some qs => some ({ question := q, answer := a' } :: qs)
        | none => none

/-- `checkAuth` (Singleton.js 274–276). -/
def checkAuth (w : World) : Bool :=
  w.session.isAuthenticated && w.session.user.isSome

/-- The activity-tracking handler installed by app.js
`setupActivityTracking` (101–105): `updateActivity` is called only when
`checkAuth()` holds. -/
def uiActivityHandler (w : World) : World :=
  if checkAuth w then updateActivity w else w

/-! ## Auxiliary notions used by the theorems -/

/-- The `SessionManager` instance fields as set by the constructor
(Singleton.js 44–51). -/
def initialSessionState (now : Nat) : SessionState :=
  { user := none, isAuthenticated := false, lastActivity := now,
    autoLockMinutes := 1, clipboardClearMinutes := 1,
    lockTimer := none, clipboardTimer := none }

def initialTimerEnv : TimerEnv :=
  { nextHandle := 0, lockIntervals := [], clipTimeouts := [] }

def mkWorld (db : Store) (now : Nat) : World :=
  { db := db, session := initialSessionState now,
    timers := initialTimerEnv, clipboard := [], now := now }

/-- The live timers the session's handle field accounts for. -/
def sessionTimerList : Option Nat → List Nat
  | some h => [h]
  | none => []

/-- Timer-hygiene invariant: the environment's live timers are exactly
the (at most one of each kind) the session currently tracks. -/
def TimerInv (w : World) : Prop :=
  w.timers.lockIntervals = sessionTimerList w.session.lockTimer ∧
  w.timers.clipTimeouts = sessionTimerList w.session.clipboardTimer

/-- `c'` is `c` up to ASCII letter case. -/
def charCaseVariant (c c' : Nat) : Prop :=
  c = c' ∨ (65 ≤ c ∧ c ≤ 90 ∧ c' = c + 32) ∨
  (65 ≤ c' ∧ c' ≤ 90 ∧ c = c' + 32)

/-- Every code unit of `s` is JS whitespace. -/
def allWs (s : JSStr) : Prop := ∀ c ∈ s, isWsChar c = true

/-! ### Concrete test fixtures -/

/-- A stored pair whose digest was produced the way `register` produces
it. -/
def mkStoredQA (q a : JSStr) : StoredQA :=
  { question := q, answer := hashPassword (normalizeAnswer a) }

def testPairs3 : List StoredQA :=
  [mkStoredQA [81, 49] [97], mkStoredQA [81, 50] [98],
   mkStoredQA [81, 51] [99]]

def testPairs4 : List StoredQA := testPairs3 ++ [mkStoredQA [81, 52] [100]]

def testRecSt3 : RecoveryState :=
  ((recoveryInit initialRecoveryState testPairs3).toOption.getD
    ([], initialRecoveryState)).2

def testRecSt4 : RecoveryState :=
  ((recoveryInit initialRecoveryState testPairs4).toOption.getD
    ([], initialRecoveryState)).2

def goodAnswers : List JSStr := [[97], [98], [99]]

def badAnswers : List JSStr := [[120], [98], [99]]

def testQs3 : List QAInput :=
  [{ question := [81, 49], answer := [97] },
   { question := [81, 50], answer := [98] },
   { question := [81, 51], answer := [99] }]

/-- Store obtained by registering email "e" with secret "Aa". -/
def c3Db : Store := (register [] [101] [65, 97] testQs3).toOption.getD []

/-- Store obtained by registering email "e" with an EMPTY questions
list. -/
def c4Db : Store := (register [] [101] [112] []).toOption.getD []

/-- The chain the fixture `testPairs3` initialization builds. -/
def testChain3 : List SQHandler :=
  [ { question := [81, 49],
      hashedAnswer := hashPassword (normalizeAnswer [97]), index := 0 },
    { question := [81, 50],
      hashedAnswer := hashPassword (normalizeAnswer [98]), index := 1 },
    { question := [81, 51],
      hashedAnswer := hashPassword (normalizeAnswer [99]), index := 2 } ]

/-- An unauthenticated world whose clock has moved past the last
recorded activity. -/
def c9World : World :=
  { db := [], session := initialSessionState 0, timers := initialTimerEnv,
    clipboard := [], now := 5 }

/-! ## Helper lemmas -/

/-- `find?` over the upsert's replace branch returns the new record. -/
theorem find_map_replace (u : Account) : ∀ db : Store,
    db.any (fun a => a.email = u.email) = true →
    (db.map (fun a => if a.email = u.email then u else a)).find?
      (fun a => a.email = u.email) = some u := by
  intro db
  induction db with
  | nil => intro h; simp at h
  | cons a db ih =>
      intro h
      by_cases ha : a.email = u.email
      · simp [ha]
      · simp only [List.any_cons] at h
        simp only [ha, decide_False, Bool.false_or] at h
        simpa [ha] using ih h

/-- `find?` over the upsert's append branch returns the new record. -/
theorem find_append_self (u : Account) : ∀ db : Store,
    db.any (fun a => a.email = u.email) = false →
    (db ++ [u]).find? (fun a => a.email = u.email) = some u := by
  intro db
  induction db with
  | nil => simp
  | cons a db ih =>
      intro h
      simp only [List.any_cons, Bool.or_eq_false_iff] at h
      obtain ⟨ha, hdb⟩ := h
      have ha' : ¬(a.email = u.email) := by simpa using ha
      simp [ha', ih hdb]

/-- After `saveUser`, looking the user's own email up yields the saved
record. -/
theorem getUser_saveUser (db : Store) (u : Account) :
    getUser (saveUser db u) u.email = some u := by
  unfold getUser saveUser
  by_cases h : db.any (fun a => a.email = u.email) = true
  · simp only [h, if_true]
    exact find_map_replace u db h
  · simp only [h, if_false]
    exact find_append_self u db (by simpa using h)

/-- If a later question slot repeats an already-selected question, the
collection loop aborts. -/
theorem collect_dup_head (q a : JSStr) (rest : List (JSStr × JSStr))
    (seen : List JSStr) (h : q ∈ seen) :
    collectQuestions ((q, a) :: rest) seen = none := by
  simp [collectQuestions, h]

/-- The collection loop propagates an abort from later slots. -/
theorem collect_cons_none (q a : JSStr) (rest : List (JSStr × JSStr))
    (seen : List JSStr) (h : collectQuestions rest (q :: seen) = none) :
    collectQuestions ((q, a) :: rest) seen = none := by
  simp [collectQuestions, h]

/-- The collection loop returns one entry per slot. -/
theorem collect_length : ∀ (slots : List (JSStr × JSStr))
    (seen : List JSStr) (qs : List QAInput),
    collectQuestions slots seen = some qs → qs.length = slots.length := by
  intro slots
  induction slots with
  | nil =>
      intro seen qs h
      simp [collectQuestions] at h
      simp [← h]
  | cons p rest ih =>
      intro seen qs h
      obtain ⟨q, a⟩ := p
      simp only [collectQuestions] at h
      split_ifs at h
      cases hrec : collectQuestions rest (q :: seen) with
      | none => rw [hrec] at h; cases h
      | some qs' =>
          rw [hrec] at h
          injection h with h
          simp [← h, ih _ _ hrec]

/-! ## C10 -/

/-- C10: for an identifier absent from the credential store,
`updatePassword` returns without error and leaves the store unchanged
(the absent account is silently ignored). -/
theorem c10_updatePassword_absent_noop (db : Store)
    (email newPassword : JSStr) (habsent : getUser db email = none) :
    updatePassword db email newPassword = db := by
  unfold updatePassword
  rw [habsent]

/-- Witness for C10 at the empty store. -/
theorem c10_updatePassword_absent_noop_witness :
    getUser [] [101] = none ∧ updatePassword [] [101] [112] = [] :=
  ⟨rfl, c10_updatePassword_absent_noop [] [101] [112] rfl⟩

/-! ## C9 -/

/-- C9 counterexample: in an unauthenticated session, `updateActivity`
is NOT a no-op — it still refreshes the idle timestamp. -/
theorem c9_counterexample :
    c9World.session.isAuthenticated = false ∧
    (updateActivity c9World).session.lastActivity ≠
      c9World.session.lastActivity := by
  exact ⟨rfl, by decide⟩

/-- C9 (amended): `updateActivity` unconditionally refreshes the idle
timestamp and changes nothing else; the UI collaborator's activity
handler only invokes it when `checkAuth()` holds, so the handler is a
no-op when unauthenticated. -/
theorem c9_updateActivity_frame :
    (∀ w : World, updateActivity w =
      { w with session := { w.session with lastActivity := w.now } }) ∧
    (∀ w : World, checkAuth w = false → uiActivityHandler w = w) := by
  constructor
  · intro w; rfl
  · intro w h; simp [uiActivityHandler, h]

/-- Witness for C9's amended statement at a concrete world. -/
theorem c9_updateActivity_frame_witness :
    checkAuth c9World = false ∧ uiActivityHandler c9World = c9World ∧
    updateActivity c9World =
      { c9World with session :=
          { c9World.session with lastActivity := c9World.now } } :=
  ⟨rfl, c9_updateActivity_frame.2 c9World rfl,
   c9_updateActivity_frame.1 c9World⟩

/-! ## C3 -/

/-- A login attempt whose digest matches the stored digest succeeds. -/
theorem login_success_of_digest_eq (w : World) (email pw : JSStr)
    (u : Account) (hget : getUser w.db email = some u)
    (hpw : hashPassword pw = u.masterPassword) :
    (login w email pw).toOption.isSome = true := by
  unfold login
  rw [hget]
  simp only [hpw, if_true, if_pos rfl]
  rfl

/-- A login attempt whose digest differs from the stored digest is
rejected with the invalid-password error. -/
theorem login_fails_of_digest_ne (w : World) (email pw : JSStr)
    (u : Account) (hget : getUser w.db email = some u)
    (hpw : hashPassword pw ≠ u.masterPassword) :
    login w email pw = .error .invalidPassword := by
  unfold login
  rw [hget]
  simp [hpw]

/-- A successful registration persists exactly the digested account. -/
theorem register_ok_getUser (db db' : Store) (email secret : JSStr)
    (qs : List QAInput) (hreg : register db email secret qs = .ok db') :
    getUser db' email = some
      { email := email, masterPassword := hashPassword secret,
        securityQuestions := qs.map (fun q =>
          { question := q.question,
            answer := hashPassword (normalizeAnswer q.answer) }),
        settings := { autoLockMinutes := 1, clipboardClearMinutes := 1 } } := by
  unfold register at hreg
  cases hgu : getUser db email with
  | some u => rw [hgu] at hreg; cases hreg
  | none =>
    rw [hgu] at hreg
    simp only [Except.ok.injEq] at hreg
    rw [← hreg]
    exact getUser_saveUser db _

/-- C3 counterexample: the fold hash collides on "Aa" and "BB" (both
fold to 2112 with equal length), so after registering secret "Aa", the
DIFFERENT secret "BB" is accepted by `login` — the claim's "digest
comparison must never accept a non-registered secret" fails. -/
theorem c3_counterexample :
    (register [] [101] [65, 97] testQs3).toOption = some c3Db ∧
    ([66, 66] : JSStr) ≠ [65, 97] ∧
    (login (mkWorld c3Db 0) [101] [66, 66]).toOption.isSome = true :=
  ⟨rfl, by decide, rfl⟩

/-- C3 (amended): after registration, login with the exact registered
secret always succeeds, and any secret whose DIGEST differs from the
registered secret's digest fails with the invalid-credential error.
(The registered/other secrets being distinct strings is not enough: the
non-cryptographic fold hash admits collisions.) -/
theorem c3_login_digest_correct
    (db db' : Store) (email secret other : JSStr) (qs : List QAInput)
    (now : Nat) (hreg : register db email secret qs = .ok db') :
    (login (mkWorld db' now) email secret).toOption.isSome = true ∧
    (hashPassword other ≠ hashPassword secret →
      login (mkWorld db' now) email other = .error .invalidPassword) := by
  have hget := register_ok_getUser db db' email secret qs hreg
  constructor
  · exact login_success_of_digest_eq _ email secret _ hget rfl
  · intro hne
    exact login_fails_of_digest_ne _ email other _ hget hne

/-- Witness for C3's amended statement: register "Aa", log in with "Aa"
(succeeds) and with "x", whose digest differs (fails). -/
theorem c3_login_digest_correct_witness :
    register [] [101] [65, 97] testQs3 = .ok c3Db ∧
    (login (mkWorld c3Db 0) [101] [65, 97]).toOption.isSome = true ∧
    login (mkWorld c3Db 0) [101] [120] = .error .invalidPassword :=
  ⟨rfl,
   (c3_login_digest_correct [] c3Db [101] [65, 97] [120] testQs3 0 rfl).1,
   (c3_login_digest_correct [] c3Db [101] [65, 97] [120] testQs3 0 rfl).2
     (by decide)⟩

/-! ## C4 -/

/-- If any two of the three question slots carry the same question
text, the UI collection loop aborts. -/
theorem collect_three_dup (q1 a1 q2 a2 q3 a3 : JSStr)
    (h : q1 = q2 ∨ q1 = q3 ∨ q2 = q3) :
    collectQuestions [(q1, a1), (q2, a2), (q3, a3)] [] = none := by
  rcases h with h | h | h
  · exact collect_cons_none _ _ _ _ (collect_dup_head _ _ _ _ (by simp [h]))
  · exact collect_cons_none _ _ _ _ (collect_cons_none _ _ _ _
      (collect_dup_head _ _ _ _ (by simp [h])))
  · exact collect_cons_none _ _ _ _ (collect_cons_none _ _ _ _
      (collect_dup_head _ _ _ _ (by simp [h])))

/-- C4 counterexample: `register` called with a fresh identifier and an
EMPTY questions list does NOT fail with an invalid-questions error — it
succeeds and the account IS persisted. -/
theorem c4_counterexample :
    (register ([] : Store) [101] [112] []).toOption = some c4Db ∧
    (getUser c4Db [101]).isSome = true :=
  ⟨rfl, rfl⟩

/-- C4 (amended): `register` itself performs no question validation —
with a fresh identifier it succeeds and persists the account for ANY
questions list (in particular for exactly 3 distinct questions).  The
fewer-than-3 / duplicate-question rejection is enforced by the UI
caller (`handleRegister`), whose collection loop returns nothing when
two slots share a question text, and exactly 3 entries otherwise. -/
theorem c4_register_no_question_validation :
    (∀ (db : Store) (email pw : JSStr) (qs : List QAInput),
      getUser db email = none →
      ∃ db', register db email pw qs = .ok db' ∧
        getUser db' email = some
          { email := email, masterPassword := hashPassword pw,
            securityQuestions := qs.map (fun q =>
              { question := q.question,
                answer := hashPassword (normalizeAnswer q.answer) }),
            settings := { autoLockMinutes := 1, clipboardClearMinutes := 1 } }) ∧
    (∀ s1 s2 s3 : JSStr × JSStr,
      (s1.1 = s2.1 ∨ s1.1 = s3.1 ∨ s2.1 = s3.1) →
      collectQuestions [s1, s2, s3] [] = none) ∧
    (∀ (s1 s2 s3 : JSStr × JSStr) (qs : List QAInput),
      collectQuestions [s1, s2, s3] [] = some qs →
      s1.1 ≠ s2.1 ∧ s1.1 ≠ s3.1 ∧ s2.1 ≠ s3.1 ∧ qs.length = 3) := by
  refine ⟨?_, ?_, ?_⟩
  · intro db email pw qs h
    have hr : register db email pw qs = .ok (saveUser db
        { email := email, masterPassword := hashPassword pw,
          securityQuestions := qs.map (fun q =>
            { question := q.question,
              answer := hashPassword (normalizeAnswer q.answer) }),
          settings := { autoLockMinutes := 1, clipboardClearMinutes := 1 } }) := by
      unfold register
      rw [h]
    exact ⟨_, hr, getUser_saveUser db _⟩
  · intro ⟨q1, a1⟩ ⟨q2, a2⟩ ⟨q3, a3⟩ h
    exact collect_three_dup q1 a1 q2 a2 q3 a3 h
  · intro ⟨q1, a1⟩ ⟨q2, a2⟩ ⟨q3, a3⟩ qs h
    refine ⟨?_, ?_, ?_, by simpa using collect_length _ _ _ h⟩
    · intro heq
      rw [collect_three_dup q1 a1 q2 a2 q3 a3 (Or.inl heq)] at h
      cases h
    · intro heq
      rw [collect_three_dup q1 a1 q2 a2 q3 a3 (Or.inr (Or.inl heq))] at h
      cases h
    · intro heq
      rw [collect_three_dup q1 a1 q2 a2 q3 a3 (Or.inr (Or.inr heq))] at h
      cases h

/-- Witness for C4's amended statement at concrete inputs. -/
theorem c4_register_no_question_validation_witness :
    getUser ([] : Store) [101] = none ∧
    (∃ db', register ([] : Store) [101] [112] [] = .ok db' ∧
      getUser db' [101] = some
        { email := [101], masterPassword := hashPassword [112],
          securityQuestions := ([] : List QAInput).map (fun q =>
            { question := q.question,
              answer := hashPassword (normalizeAnswer q.answer) }),
          settings := { autoLockMinutes := 1, clipboardClearMinutes := 1 } }) ∧
    collectQuestions [([81], [97]), ([81], [98]), ([82], [99])] [] = none ∧
    (([81] : JSStr) ≠ [82] ∧ ([81] : JSStr) ≠ [83] ∧
      ([82] : JSStr) ≠ [83] ∧
      ([{ question := [81], answer := [97] },
        { question := [82], answer := [98] },
        { question := [83], answer := [99] }] : List QAInput).length = 3) :=
  ⟨rfl,
   c4_register_no_question_validation.1 [] [101] [112] [] rfl,
   c4_register_no_question_validation.2.1 ([81], [97]) ([81], [98])
     ([82], [99]) (Or.inl rfl),
   c4_register_no_question_validation.2.2 ([81], [97]) ([82], [98])
     ([83], [99]) _ rfl⟩

/-! ## C6 -/

/-- Fewer than 3 pairs: initialization fails with the
insufficient-factors error (state untouched — the throw precedes any
mutation). -/
theorem recoveryInit_short (st : RecoveryState) (pairs : List StoredQA)
    (h : pairs.length < 3) :
    recoveryInit st pairs = .error .insufficientFactors := by
  unfold recoveryInit
  rw [if_pos h]

/-- At least 3 pairs: initialization stores all question texts for
display but builds the chain from the first three pairs only, and
resets the attempt counter and the lockout flag. -/
theorem recoveryInit_cons (st : RecoveryState) (p0 p1 p2 : StoredQA)
    (rest : List StoredQA) :
    recoveryInit st (p0 :: p1 :: p2 :: rest) =
      .ok ((p0 :: p1 :: p2 :: rest).enum.map (fun p => (p.1, p.2.question)),
        { st with
          chain := some
            [ { question := p0.question, hashedAnswer := p0.answer, index := 0 },
              { question := p1.question, hashedAnswer := p1.answer, index := 1 },
              { question := p2.question, hashedAnswer := p2.answer, index := 2 } ],
          questions :=
            (p0 :: p1 :: p2 :: rest).enum.map (fun p => (p.1, p.2.question)),
          attempts := 0, locked := false }) := by
  unfold recoveryInit
  rw [if_neg (by simp)]

/-- C6 counterexample: initializing with 4 pairs succeeds but builds a
chain of 3 steps, not `len(pairs)` = 4; the 4th supplied answer is
never verified (a wrong 4th answer still verifies successfully). -/
theorem c6_counterexample :
    testPairs4.length = 4 ∧
    (recoveryInit initialRecoveryState testPairs4).toOption =
      some (testRecSt4.questions, testRecSt4) ∧
    (testRecSt4.chain.getD []).length = 3 ∧
    (verify testRecSt4 0 [[97], [98], [99], [122]]).1 = .success :=
  ⟨rfl, rfl, rfl, rfl⟩

/-- C6 (amended): fewer than 3 pairs fails with the
insufficient-factors error and no chain is built; otherwise the chain
has exactly 3 steps, built from the FIRST THREE pairs (extra pairs are
ignored by the chain), the returned display list carries index and
question text for every supplied pair (and no digests), and the attempt
counter and lockout are reset. -/
theorem c6_recoveryInit_amended (st : RecoveryState)
    (pairs : List StoredQA) :
    (pairs.length < 3 →
      recoveryInit st pairs = .error .insufficientFactors) ∧
    (3 ≤ pairs.length →
      ∃ p0 p1 p2 rest, pairs = p0 :: p1 :: p2 :: rest ∧
        recoveryInit st pairs =
          .ok (pairs.enum.map (fun p => (p.1, p.2.question)),
            { st with
              chain := some
                [ { question := p0.question, hashedAnswer := p0.answer,
                    index := 0 },
                  { question := p1.question, hashedAnswer := p1.answer,
                    index := 1 },
                  { question := p2.question, hashedAnswer := p2.answer,
                    index := 2 } ],
              questions := pairs.enum.map (fun p => (p.1, p.2.question)),
              attempts := 0, locked := false })) := by
  constructor
  · exact recoveryInit_short st pairs
  · intro h
    match pairs, h with
    | p0 :: p1 :: p2 :: rest, _ =>
        exact ⟨p0, p1, p2, rest, rfl, recoveryInit_cons st p0 p1 p2 rest⟩

/-- Witness for C6's amended statement: the empty list is rejected; the
4-pair list builds the 3-step chain. -/
theorem c6_recoveryInit_amended_witness :
    (([] : List StoredQA).length < 3 ∧
      recoveryInit initialRecoveryState [] = .error .insufficientFactors) ∧
    (3 ≤ testPairs4.length ∧
      ∃ p0 p1 p2 rest, testPairs4 = p0 :: p1 :: p2 :: rest ∧
        recoveryInit initialRecoveryState testPairs4 =
          .ok (testPairs4.enum.map (fun p => (p.1, p.2.question)),
            { initialRecoveryState with
              chain := some
                [ { question := p0.question, hashedAnswer := p0.answer,
                    index := 0 },
                  { question := p1.question, hashedAnswer := p1.answer,
                    index := 1 },
                  { question := p2.question, hashedAnswer := p2.answer,
                    index := 2 } ],
              questions := testPairs4.enum.map (fun p => (p.1, p.2.question)),
              attempts := 0, locked := false })) :=
  ⟨⟨by decide,
    (c6_recoveryInit_amended initialRecoveryState []).1 (by decide)⟩,
   ⟨by decide,
    (c6_recoveryInit_amended initialRecoveryState testPairs4).2 (by decide)⟩⟩

/-! ## Verify-step lemmas -/

/-- A locked manager rejects any verification attempt unchanged. -/
theorem verify_locked (st : RecoveryState) (now : Nat) (ans : List JSStr)
    (h : st.locked = true) : verify st now ans = (.lockedOut, st) := by
  simp [verify, h]

/-- A chain success propagates to the manager and leaves the state
untouched. -/
theorem verify_success_eq (st : RecoveryState) (now : Nat)
    (ans : List JSStr) (chain : List SQHandler)
    (hl : st.locked = false) (hc : st.chain = some chain)
    (hr : handleRequest chain ans = .success) :
    verify st now ans = (.success, st) := by
  simp [verify, hl, hc, hr]

/-- A chain failure below the attempt cap increments the counter and
reports the 1-based failing position and the remaining attempts. -/
theorem verify_fail_count (st : RecoveryState) (now : Nat)
    (ans : List JSStr) (chain : List SQHandler) (k : Nat)
    (hl : st.locked = false) (hc : st.chain = some chain)
    (hr : handleRequest chain ans = .failedAt k)
    (hlt : st.attempts + 1 < st.maxAttempts) :
    verify st now ans =
      (.wrongAnswer k (st.maxAttempts - (st.attempts + 1)),
       { st with attempts := st.attempts + 1 }) := by
  simp [verify, hl, hc, hr]
  omega

/-- A chain failure reaching the attempt cap sets the lockout and
schedules its clearing 15 minutes out. -/
theorem verify_fail_lock (st : RecoveryState) (now : Nat)
    (ans : List JSStr) (chain : List SQHandler) (k : Nat)
    (hl : st.locked = false) (hc : st.chain = some chain)
    (hr : handleRequest chain ans = .failedAt k)
    (hge : st.maxAttempts ≤ st.attempts + 1) :
    verify st now ans =
      (.justLocked,
       { st with attempts := st.attempts + 1, locked := true,
                 lockClearAt := some (now + 15 * 60 * 1000) }) := by
  simp [verify, hl, hc, hr]
  exact hge

/-! ## C7 -/

/-- C7 counterexample: from the same initialized flow, a second
all-correct `verify` call returns success AGAIN — success is not
limited to exactly once per `initialize`. -/
theorem c7_counterexample :
    (verify testRecSt3 1000 goodAnswers).1 = .success ∧
    (verify (verify testRecSt3 1000 goodAnswers).2 2000 goodAnswers).1 =
      .success :=
  ⟨rfl, rfl⟩

/-- C7 (amended): on an initialized, unlocked manager an all-correct
`verify` returns success and leaves the state entirely unchanged — in
particular it neither resets the attempt counter nor changes the
lockout — and therefore a repeated all-correct call returns success
again (the code does not consume the chain on success). -/
theorem c7_verify_success_stateless (st : RecoveryState) (now now' : Nat)
    (ans : List JSStr) (chain : List SQHandler)
    (hl : st.locked = false) (hc : st.chain = some chain)
    (hr : handleRequest chain ans = .success) :
    verify st now ans = (.success, st) ∧
    verify (verify st now ans).2 now' ans = (.success, st) := by
  have h1 := verify_success_eq st now ans chain hl hc hr
  refine ⟨h1, ?_⟩
  rw [h1]
  exact verify_success_eq st now' ans chain hl hc hr

/-- Witness for C7's amended statement on the 3-question fixture. -/
theorem c7_verify_success_stateless_witness :
    testRecSt3.locked = false ∧
    testRecSt3.chain = some testChain3 ∧
    handleRequest testChain3 goodAnswers = .success ∧
    verify testRecSt3 1000 goodAnswers = (.success, testRecSt3) ∧
    verify (verify testRecSt3 1000 goodAnswers).2 2000 goodAnswers =
      (.success, testRecSt3) :=
  ⟨rfl, rfl, rfl,
   (c7_verify_success_stateless testRecSt3 1000 2000 goodAnswers testChain3
      rfl rfl rfl).1,
   (c7_verify_success_stateless testRecSt3 1000 2000 goodAnswers testChain3
      rfl rfl rfl).2⟩

/-! ## C1 -/

/-- C1: on a freshly initialized chain, when the first supplied answer
does not verify against the first stored digest, the chain reports
failure at 1-based position 1 whatever the later answers are (the
outcome is unchanged under any replacement of the entries after
position 0 — no step after the failing one is evaluated), and the
manager's `verify` surfaces the wrong-answer failure naming position 1
with 2 attempts left, incrementing only the attempt counter. -/
theorem c1_first_wrong_fails_at_position_one (st : RecoveryState)
    (p0 p1 p2 : StoredQA) (rest : List StoredQA)
    (answers : List JSStr) (now : Nat)
    (hmax : st.maxAttempts = 3)
    (hwrong : sqVerify
      { question := p0.question, hashedAnswer := p0.answer, index := 0 }
      answers[0]? = false) :
    ∃ qs st', recoveryInit st (p0 :: p1 :: p2 :: rest) = .ok (qs, st') ∧
      (∀ chain, st'.chain = some chain →
        handleRequest chain answers = .failedAt 1 ∧
        (∀ answers' : List JSStr, answers'[0]? = answers[0]? →
          handleRequest chain answers' = .failedAt 1)) ∧
      (verify st' now answers).1 = .wrongAnswer 1 2 ∧
      (verify st' now answers).2 = { st' with attempts := 1 } := by
  refine ⟨_, _, recoveryInit_cons st p0 p1 p2 rest, ?_, ?_, ?_⟩
  · intro chain hchain
    simp only [Option.some.injEq] at hchain
    subst hchain
    constructor
    · simp [handleRequest, hwrong]
    · intro answers' hagree
      simp [handleRequest, hagree, hwrong]
  · simp [verify, handleRequest, hwrong, hmax]
  · simp [verify, handleRequest, hwrong, hmax]

/-- Witness for C1 on the 3-question fixture with a wrong first answer
"x". -/
theorem c1_first_wrong_witness :
    initialRecoveryState.maxAttempts = 3 ∧
    sqVerify
      { question := [81, 49],
        hashedAnswer := hashPassword (normalizeAnswer [97]), index := 0 }
      (badAnswers[0]?) = false ∧
    (∃ qs st',
      recoveryInit initialRecoveryState testPairs3 = .ok (qs, st') ∧
      (∀ chain, st'.chain = some chain →
        handleRequest chain badAnswers = .failedAt 1 ∧
        (∀ answers' : List JSStr, answers'[0]? = badAnswers[0]? →
          handleRequest chain answers' = .failedAt 1)) ∧
      (verify st' 1000 badAnswers).1 = .wrongAnswer 1 2 ∧
      (verify st' 1000 badAnswers).2 = { st' with attempts := 1 }) :=
  ⟨rfl, by decide,
   c1_first_wrong_fails_at_position_one initialRecoveryState
     (mkStoredQA [81, 49] [97]) (mkStoredQA [81, 50] [98])
     (mkStoredQA [81, 51] [99]) [] badAnswers 1000 rfl (by decide)⟩

/-! ## C2 -/

/-- C2: from a freshly initialized chain, three consecutive failed
`verify` calls leave the lockout flag set with the clearing timeout
scheduled 15 minutes after the third failure; a fourth call returns the
locked failure unchanged even when the supplied answers are all
correct; the scheduled timeout can only fire once the 15 minutes have
elapsed; and after it fires, an all-correct `verify` succeeds again. -/
theorem c2_lockout_after_three_failures (st st0 : RecoveryState)
    (p0 p1 p2 : StoredQA) (rest : List StoredQA)
    (qs : List (Nat × JSStr)) (chain : List SQHandler)
    (a1 a2 a3 good : List JSStr) (t1 t2 t3 t4 t5 : Nat) (k1 k2 k3 : Nat)
    (hmax : st.maxAttempts = 3)
    (hinit : recoveryInit st (p0 :: p1 :: p2 :: rest) = .ok (qs, st0))
    (hchain : st0.chain = some chain)
    (h1 : handleRequest chain a1 = .failedAt k1)
    (h2 : handleRequest chain a2 = .failedAt k2)
    (h3 : handleRequest chain a3 = .failedAt k3)
    (hgood : handleRequest chain good = .success) :
    (verify st0 t1 a1).1 = .wrongAnswer k1 2 ∧
    (verify (verify st0 t1 a1).2 t2 a2).1 = .wrongAnswer k2 1 ∧
    (verify (verify (verify st0 t1 a1).2 t2 a2).2 t3 a3).1 = .justLocked ∧
    ((verify (verify (verify st0 t1 a1).2 t2 a2).2 t3 a3).2.locked = true ∧
     (verify (verify (verify st0 t1 a1).2 t2 a2).2 t3 a3).2.lockClearAt =
       some (t3 + 15 * 60 * 1000)) ∧
    (verify ((verify (verify (verify st0 t1 a1).2 t2 a2).2 t3 a3).2) t4 good =
      (.lockedOut, (verify (verify (verify st0 t1 a1).2 t2 a2).2 t3 a3).2)) ∧
    (∀ now, canFireLockTimeout
        ((verify (verify (verify st0 t1 a1).2 t2 a2).2 t3 a3).2) now →
      t3 + 15 * 60 * 1000 ≤ now) ∧
    (verify (fireLockTimeout
        ((verify (verify (verify st0 t1 a1).2 t2 a2).2 t3 a3).2)) t5 good).1 =
      .success := by
  rw [recoveryInit_cons] at hinit
  simp only [Except.ok.injEq, Prod.mk.injEq] at hinit
  obtain ⟨hqs, hst0⟩ := hinit
  subst hst0
  simp only [RecoveryState.chain, Option.some.injEq] at hchain
  subst hchain
  refine ⟨?_, ?_, ?_, ⟨?_, ?_⟩, ?_, ?_, ?_⟩
  · simp [verify, h1, hmax]
  · simp [verify, h1, h2, hmax]
  · simp [verify, h1, h2, h3, hmax]
  · simp [verify, h1, h2, h3, hmax]
  · simp [verify, h1, h2, h3, hmax]
  · simp [verify, h1, h2, h3, hmax]
  · intro now hfire
    obtain ⟨t, ht, hle⟩ := hfire
    simp [verify, h1, h2, h3, hmax] at ht
    omega
  · simp [verify, fireLockTimeout, h1, h2, h3, hgood, hmax]

/-- Witness for C2 on the 3-question fixture: three wrong batches, a
locked 4th all-correct call, and success after the timeout fires. -/
theorem c2_lockout_witness :
    initialRecoveryState.maxAttempts = 3 ∧
    recoveryInit initialRecoveryState testPairs3 =
      .ok (testRecSt3.questions, testRecSt3) ∧
    testRecSt3.chain = some testChain3 ∧
    handleRequest testChain3 badAnswers = .failedAt 1 ∧
    handleRequest testChain3 goodAnswers = .success ∧
    ((verify testRecSt3 1000 badAnswers).1 = .wrongAnswer 1 2 ∧
     (verify (verify testRecSt3 1000 badAnswers).2 2000 badAnswers).1 =
       .wrongAnswer 1 1 ∧
     (verify (verify (verify testRecSt3 1000 badAnswers).2 2000
        badAnswers).2 3000 badAnswers).1 = .justLocked ∧
     ((verify (verify (verify testRecSt3 1000 badAnswers).2 2000
         badAnswers).2 3000 badAnswers).2.locked = true ∧
      (verify (verify (verify testRecSt3 1000 badAnswers).2 2000
         badAnswers).2 3000 badAnswers).2.lockClearAt =
        some (3000 + 15 * 60 * 1000)) ∧
     (verify ((verify (verify (verify testRecSt3 1000 badAnswers).2 2000
         badAnswers).2 3000 badAnswers).2) 4000 goodAnswers =
       (.lockedOut, (verify (verify (verify testRecSt3 1000
          badAnswers).2 2000 badAnswers).2 3000 badAnswers).2)) ∧
     (∀ now, canFireLockTimeout
         ((verify (verify (verify testRecSt3 1000 badAnswers).2 2000
            badAnswers).2 3000 badAnswers).2) now →
       3000 + 15 * 60 * 1000 ≤ now) ∧
     (verify (fireLockTimeout
         ((verify (verify (verify testRecSt3 1000 badAnswers).2 2000
            badAnswers).2 3000 badAnswers).2)) 903001 goodAnswers).1 =
       .success) :=
  ⟨rfl, rfl, rfl, rfl, rfl,
   c2_lockout_after_three_failures initialRecoveryState testRecSt3
     (mkStoredQA [81, 49] [97]) (mkStoredQA [81, 50] [98])
     (mkStoredQA [81, 51] [99]) [] testRecSt3.questions testChain3
     badAnswers badAnswers badAnswers goodAnswers
     1000 2000 3000 4000 903001 1 1 1
     rfl rfl rfl rfl rfl rfl rfl⟩

/-! ## C5 -/

/-- Lower-casing leaves whitespace code units unchanged (no whitespace
code unit is an ASCII capital). -/
theorem lowerChar_ws {c : Nat} (h : isWsChar c = true) : lowerChar c = c := by
  simp only [isWsChar, decide_eq_true_eq] at h
  unfold lowerChar
  rw [if_neg (by omega)]

/-- Lower-casing an all-whitespace string is the identity. -/
theorem toLowerList_ws {p : JSStr} (hp : allWs p) : toLowerList p = p := by
  induction p with
  | nil => rfl
  | cons c p ih =>
      have hc := hp c (by simp)
      have hrest : allWs p := fun d hd => hp d (by simp [hd])
      simp [toLowerList] at ih ⊢
      exact ⟨lowerChar_ws hc, ih hrest⟩

/-- Strings that agree up to ASCII letter case lower-case to the same
string. -/
theorem lower_eq_of_caseVar {core core' : JSStr}
    (h : List.Forall₂ charCaseVariant core core') :
    toLowerList core = toLowerList core' := by
  induction h with
  | nil => rfl
  | cons hcc _ ih =>
      rename_i c c' l l' hrest
      simp only [toLowerList, List.map_cons, List.cons.injEq]
      refine ⟨?_, ih⟩
      rcases hcc with h | ⟨h1, h2, h3⟩ | ⟨h1, h2, h3⟩
      · rw [h]
      · unfold lowerChar
        rw [if_pos ⟨h1, h2⟩, if_neg (by omega), h3]
      · unfold lowerChar
        rw [if_neg (by omega), if_pos ⟨h1, h2⟩, h3]

/-- Leading whitespace is invisible to `dropWhile isWsChar`. -/
theorem dropWhile_ws_append {p : JSStr} (s : JSStr) (hp : allWs p) :
    (p ++ s).dropWhile isWsChar = s.dropWhile isWsChar := by
  induction p with
  | nil => rfl
  | cons c p ih =>
      have hc := hp c (by simp)
      have hrest : allWs p := fun d hd => hp d (by simp [hd])
      simp [List.dropWhile, hc, ih hrest]

theorem allWs_reverse {q : JSStr} (hq : allWs q) : allWs q.reverse :=
  fun c hc => hq c (List.mem_reverse.mp hc)

theorem dropWhile_ws_all {q : JSStr} (hq : allWs q) :
    q.dropWhile isWsChar = [] := by
  have := dropWhile_ws_append (p := q) [] hq
  simpa using this

/-- Trailing whitespace is invisible to the right-trim. -/
theorem dropRightWs_append_ws {q : JSStr} (x : JSStr) (hq : allWs q) :
    dropRightWs (x ++ q) = dropRightWs x := by
  unfold dropRightWs
  rw [List.reverse_append, dropWhile_ws_append _ (allWs_reverse hq)]

/-- `dropWhile` over an append either consumes all of the prefix or
stops inside it. -/
theorem dropWhile_append_split (s q : JSStr) :
    (s.dropWhile isWsChar = [] ∧
      (s ++ q).dropWhile isWsChar = q.dropWhile isWsChar) ∨
    (s ++ q).dropWhile isWsChar = s.dropWhile isWsChar ++ q := by
  induction s with
  | nil => exact Or.inl ⟨rfl, rfl⟩
  | cons c s ih =>
      by_cases hc : isWsChar c = true
      · rcases ih with ⟨h1, h2⟩ | h
        · exact Or.inl ⟨by simp [List.dropWhile, hc, h1],
            by simp [List.dropWhile, hc, h2]⟩
        · exact Or.inr (by simp [List.dropWhile, hc, h])
      · exact Or.inr (by simp [List.dropWhile, hc])

/-- Whitespace padding on either side is erased by `trim`. -/
theorem trim_padding {p q : JSStr} (s : JSStr) (hp : allWs p)
    (hq : allWs q) : trimList (p ++ s ++ q) = trimList s := by
  unfold trimList
  rw [List.append_assoc, dropWhile_ws_append _ hp]
  rcases dropWhile_append_split s q with ⟨h1, h2⟩ | h
  · rw [h2, dropWhile_ws_all hq, h1]
  · rw [h, dropRightWs_append_ws _ hq]

/-- C5: when `a'` differs from the registered answer `a` only in ASCII
letter case and/or leading/trailing whitespace, the digest computed at
verification time for `a'` equals the digest stored at registration
time for `a`, so the verification step for that question succeeds. -/
theorem c5_normalization_roundtrip
    (a a' pre suf pre' suf' core core' : JSStr) (h : SQHandler)
    (hpre : allWs pre) (hsuf : allWs suf)
    (hpre' : allWs pre') (hsuf' : allWs suf')
    (hcore : List.Forall₂ charCaseVariant core core')
    (ha : a = pre ++ core ++ suf) (ha' : a' = pre' ++ core' ++ suf')
    (hdig : h.hashedAnswer = hashPassword (normalizeAnswer a)) :
    hashPassword (normalizeAnswer a') = hashPassword (normalizeAnswer a) ∧
    sqVerify h (some a') = true := by
  have key : normalizeAnswer a' = normalizeAnswer a := by
    subst ha ha'
    unfold normalizeAnswer toLowerList
    rw [List.map_append, List.map_append, List.map_append, List.map_append]
    show trimList ((toLowerList pre' ++ toLowerList core') ++
        toLowerList suf') =
      trimList ((toLowerList pre ++ toLowerList core) ++ toLowerList suf)
    rw [toLowerList_ws hpre', toLowerList_ws hsuf',
        toLowerList_ws hpre, toLowerList_ws hsuf]
    rw [trim_padding _ hpre' hsuf', trim_padding _ hpre hsuf,
        lower_eq_of_caseVar hcore]
  refine ⟨by rw [key], ?_⟩
  simp [sqVerify, key, hdig]

/-- Witness for C5: answer "Rex" registered, " REX " supplied. -/
theorem c5_normalization_roundtrip_witness :
    allWs [] ∧ allWs [32] ∧
    List.Forall₂ charCaseVariant [82, 101, 120] [82, 69, 88] ∧
    hashPassword (normalizeAnswer [32, 82, 69, 88, 32]) =
      hashPassword (normalizeAnswer [82, 101, 120]) ∧
    sqVerify
      { question := [81],
        hashedAnswer := hashPassword (normalizeAnswer [82, 101, 120]),
        index := 0 } (some [32, 82, 69, 88, 32]) = true := by
  have hws0 : allWs ([] : JSStr) := by intro c hc; cases hc
  have hws1 : allWs [32] := by
    intro c hc
    simp only [List.mem_singleton] at hc
    rw [hc]
    decide
  have hcore : List.Forall₂ charCaseVariant [82, 101, 120] [82, 69, 88] :=
    .cons (Or.inl rfl)
      (.cons (Or.inr (Or.inr ⟨by decide, by decide, by decide⟩))
        (.cons (Or.inr (Or.inr ⟨by decide, by decide, by decide⟩)) .nil))
  have main := c5_normalization_roundtrip [82, 101, 120]
    [32, 82, 69, 88, 32] [] [] [32] [32] [82, 101, 120] [82, 69, 88]
    { question := [81],
      hashedAnswer := hashPassword (normalizeAnswer [82, 101, 120]),
      index := 0 }
    hws0 hws0 hws1 hws1 hcore rfl rfl rfl
  exact ⟨hws0, hws1, hcore, main.1, main.2⟩

/-! ## C8 -/

/-- `stopAutoLockTimer` cancels exactly the tracked interval: under the
timer-hygiene invariant, no live lock interval remains, and the
clipboard side is untouched. -/
theorem stopAutoLockTimer_spec (w : World) (hinv : TimerInv w) :
    TimerInv (stopAutoLockTimer w) ∧
    (stopAutoLockTimer w).timers.lockIntervals = [] ∧
    (stopAutoLockTimer w).timers.clipTimeouts = w.timers.clipTimeouts ∧
    (stopAutoLockTimer w).session.clipboardTimer =
      w.session.clipboardTimer := by
  obtain ⟨hl, hc⟩ := hinv
  unfold stopAutoLockTimer
  cases hlk : w.session.lockTimer with
  | none =>
      refine ⟨⟨hl, hc⟩, ?_, rfl, rfl⟩
      rw [hl, hlk]
      rfl
  | some h =>
      have : w.timers.lockIntervals = [h] := by rw [hl, hlk]; rfl
      refine ⟨⟨?_, hc⟩, ?_, rfl, rfl⟩
      · simp [clearIntervalLock, this, sessionTimerList]
      · simp [clearIntervalLock, this]

/-- `startAutoLockTimer` cancels any prior interval first, so exactly
one live lock interval results. -/
theorem startAutoLockTimer_spec (w : World) (hinv : TimerInv w) :
    TimerInv (startAutoLockTimer w) ∧
    (startAutoLockTimer w).timers.lockIntervals.length = 1 := by
  obtain ⟨hstop, hempty, hclip, hct⟩ := stopAutoLockTimer_spec w hinv
  unfold startAutoLockTimer
  constructor
  · constructor
    · simp [setIntervalLock, hempty, sessionTimerList]
    · simpa [setIntervalLock] using hstop.2.trans (by rw [hct])
  · simp [setIntervalLock, hempty]

/-- `clearClipboard` cancels exactly the tracked clear-timeout and
leaves the lock side untouched. -/
theorem clearClipboard_spec (w : World) (hinv : TimerInv w) :
    TimerInv (clearClipboard w) ∧
    (clearClipboard w).timers.clipTimeouts = [] ∧
    (clearClipboard w).timers.lockIntervals = w.timers.lockIntervals ∧
    (clearClipboard w).session.lockTimer = w.session.lockTimer := by
  obtain ⟨hl, hc⟩ := hinv
  unfold clearClipboard
  cases hck : w.session.clipboardTimer with
  | none =>
      simp only [hck]
      refine ⟨⟨?_, ?_⟩, ?_, ?_, ?_⟩ <;>
        simp [hl, hc, hck, sessionTimerList]
  | some h =>
      simp only [hck]
      have hcl : w.timers.clipTimeouts = [h] := by rw [hc, hck]; rfl
      refine ⟨⟨?_, ?_⟩, ?_, ?_, ?_⟩ <;>
        simp [clearTimeoutClip, hl, hcl, sessionTimerList]

/-- `logout` cancels both the inactivity interval and the
clipboard-clear timeout. -/
theorem logout_spec (w : World) (hinv : TimerInv w) :
    TimerInv (logout w) ∧ (logout w).timers.lockIntervals = [] ∧
    (logout w).timers.clipTimeouts = [] := by
  unfold logout
  have hinv1 : TimerInv { w with session :=
      { w.session with user := none, isAuthenticated := false } } := hinv
  obtain ⟨h1, h2, h3, h4⟩ := stopAutoLockTimer_spec _ hinv1
  obtain ⟨g1, g2, g3, g4⟩ := clearClipboard_spec _ h1
  exact ⟨g1, by rw [g3, h2], g2⟩

/-- A successful `login` leaves exactly one live inactivity interval. -/
theorem login_ok_spec (w w' : World) (email pw : JSStr)
    (hinv : TimerInv w) (hok : login w email pw = .ok w') :
    TimerInv w' ∧ w'.timers.lockIntervals.length = 1 := by
  unfold login at hok
  split at hok
  · cases hok
  · split at hok
    · simp only [Except.ok.injEq] at hok
      subst hok
      exact startAutoLockTimer_spec _ hinv
    · cases hok

/-- A successful `unlock` leaves exactly one live inactivity interval. -/
theorem unlock_ok_spec (w w' : World) (pw : JSStr)
    (hinv : TimerInv w) (hok : unlock w pw = .ok w') :
    TimerInv w' ∧ w'.timers.lockIntervals.length = 1 := by
  unfold unlock at hok
  split at hok
  · cases hok
  · split at hok
    · simp only [Except.ok.injEq] at hok
      subst hok
      exact startAutoLockTimer_spec _ hinv
    · cases hok

/-- C8: under the timer-hygiene invariant, at most one inactivity timer
is live — two consecutive successful logins leave exactly ONE live
interval (the second login cancels the first's), any successful
login/unlock leaves exactly one and preserves the invariant, and
`logout` cancels both the inactivity interval and the clipboard-clear
timeout. -/
theorem c8_single_active_timer (w : World) (hinv : TimerInv w) :
    (∀ e1 p1 e2 p2 w1 w2, login w e1 p1 = .ok w1 →
      login w1 e2 p2 = .ok w2 →
      TimerInv w2 ∧ w2.timers.lockIntervals.length = 1) ∧
    (∀ e p w', login w e p = .ok w' →
      TimerInv w' ∧ w'.timers.lockIntervals.length = 1) ∧
    (∀ p w', unlock w p = .ok w' →
      TimerInv w' ∧ w'.timers.lockIntervals.length = 1) ∧
    (TimerInv (logout w) ∧ (logout w).timers.lockIntervals = [] ∧
      (logout w).timers.clipTimeouts = []) := by
  refine ⟨?_, ?_, ?_, logout_spec w hinv⟩
  · intro e1 p1 e2 p2 w1 w2 h1 h2
    exact login_ok_spec w1 w2 e2 p2 (login_ok_spec w w1 e1 p1 hinv h1).1 h2
  · intro e p w' h
    exact login_ok_spec w w' e p hinv h
  · intro p w' h
    exact unlock_ok_spec w w' p hinv h

/-- Witness for C8: two concrete logins on the registered store leave
exactly one live interval; logout cancels everything. -/
theorem c8_single_active_timer_witness :
    TimerInv (mkWorld c3Db 0) ∧
    ((login ((login (mkWorld c3Db 0) [101] [65, 97]).toOption.getD
        (mkWorld [] 0)) [101] [65, 97]).toOption.getD
        (mkWorld [] 0)).timers.lockIntervals.length = 1 ∧
    (logout (mkWorld c3Db 0)).timers.lockIntervals = [] ∧
    (logout (mkWorld c3Db 0)).timers.clipTimeouts = [] := by
  have hinv : TimerInv (mkWorld c3Db 0) := ⟨rfl, rfl⟩
  have hthm := c8_single_active_timer (mkWorld c3Db 0) hinv
  exact ⟨hinv,
    (hthm.1 [101] [65, 97] [101] [65, 97] _ _ rfl rfl).2,
    hthm.2.2.2.2.1, hthm.2.2.2.2.2⟩
